import Mathlib

/-!
Verification of the arm-grab acquisition script (src/arm-grab.py) against its
natural-language specification.

The script is embedded shallowly:
  * the module-level constants assembled at startup (INSTANCE_NAME,
    COMPARTMENT_ID, SHAPE_NAME, VCN_ID, SUBNET_ID, IMAGE_ID, the ssh key)
    become an explicit Config record threaded through the definitions;
  * AD_NAMES (the availability domains discovered at startup) becomes an
    explicit list argument;
  * the provider client, the failure-log file and the keyboard are external
    collaborators: one Env record of response functions, indexed by the
    global attempt counter, stands for them;
  * the while True / for loop of main is flattened into a fuel-indexed
    step function over the global attempt counter k, the candidate tried at
    attempt k being the one at index k % length (the round-robin order of
    the nested loops);
  * sys.exit and an uncaught exception become the two Final constructors.
-/

namespace ArmGrab

/-- oci.core.models.LaunchInstanceShapeConfigDetails as instantiated at
src/arm-grab.py:72-74. -/
structure ShapeConfig where
  ocpus : Nat
  memory_in_gbs : Nat
deriving DecidableEq

/-- oci.core.models.InstanceSourceViaImageDetails (src/arm-grab.py:109-111). -/
structure SourceDetails where
  source_type : String
  image_id : String
deriving DecidableEq

/-- oci.core.models.CreateVnicDetails (src/arm-grab.py:112-115). -/
structure VnicDetails where
  subnet_id : String
  assign_public_ip : Bool
deriving DecidableEq

/-- oci.core.models.LaunchInstanceAvailabilityConfigDetails
(src/arm-grab.py:75-77). -/
structure AvailabilityConfig where
  recovery_action : String
deriving DecidableEq

/-- oci.core.models.InstanceOptions (src/arm-grab.py:78-80). -/
structure InstanceOptions where
  are_legacy_imds_endpoints_disabled : Bool
deriving DecidableEq

/-- oci.core.models.LaunchInstanceDetails, restricted to the fields the
script sets (src/arm-grab.py:103-119). -/
structure LaunchInstanceDetails where
  compartment_id : String
  availability_domain : String
  shape : String
  shape_config : ShapeConfig
  display_name : String
  source_details : SourceDetails
  create_vnic_details : VnicDetails
  metadata : List (String × String)
  availability_config : AvailabilityConfig
  instance_options : InstanceOptions
deriving DecidableEq

/-- The module-level configuration constants of src/arm-grab.py:57-95,
resolved at startup from external collaborators (OCI config file, network
client, image listing, ssh key file). -/
structure Config where
  instance_name : String
  compartment_id : String
  shape_name : String
  subnet_id : String
  image_id : String
  pub_key : String
deriving DecidableEq

/-- The allocation template: the LaunchInstanceDetails fields that are
identical across candidates (every field the script sets except the
availability domain, which create_instance_list overrides per location). -/
def template (cfg : Config) : LaunchInstanceDetails :=
  { compartment_id := cfg.compartment_id
    availability_domain := ""
    shape := cfg.shape_name
    shape_config := { ocpus := 4, memory_in_gbs := 24 }
    display_name := cfg.instance_name
    source_details := { source_type := "image", image_id := cfg.image_id }
    create_vnic_details := { subnet_id := cfg.subnet_id, assign_public_ip := true }
    metadata := [("ssh_authorized_keys", cfg.pub_key)]
    availability_config := { recovery_action := "RESTORE_INSTANCE" }
    instance_options := { are_legacy_imds_endpoints_disabled := true } }

/-- create_instance_list (src/arm-grab.py:98-123): one LaunchInstanceDetails
per availability domain, built by appending in iteration order; the globals
it reads (AD_NAMES and the constants) are passed explicitly. -/
def create_instance_list (cfg : Config) (ad_names : List String) :
    List LaunchInstanceDetails :=
  ad_names.map fun i => { template cfg with availability_domain := i }

/-- The fields of oci.exceptions.ServiceError that the handler at
src/arm-grab.py:144-156 reads. -/
structure ServiceError where
  timestamp : String
  status : Nat
  message : String
deriving DecidableEq

/-- What one launch_instance call (src/arm-grab.py:140) can do from the
controller's point of view: return a response carrying the allocated
handle, raise oci.exceptions.ServiceError, or be interrupted by Ctrl-C
while in flight. -/
inductive SubmitResult where
  | success (handle : String)
  | serviceError (e : ServiceError)
  | keyboardInterrupt
deriving DecidableEq

/-- The external world of one run, indexed by the global attempt counter:
what launch_instance returns at attempt k, whether the append to
faillog.txt at attempt k raises (some err = an IOError with that text,
none = the write succeeds), and whether Ctrl-C arrives during the sleep
at attempt k. -/
structure Env where
  submit : Nat → SubmitResult
  logWrite : Nat → Option String
  sleepInterrupt : Nat → Bool

/-- How the process can stop: sys.exit(code), or an exception escaping
main uncaught. -/
inductive Final where
  | exited (code : Nat)
  | crashed (err : String)
deriving DecidableEq

/-- The observable trace of a run: console lines printed, lines written to
faillog.txt, durations passed to sleep, and the availability domains the
controller submitted launch requests for, all in order. -/
structure RunState where
  output : List String
  log : List String
  sleeps : List Nat
  submissions : List String
deriving DecidableEq

/-- The backoff chosen at src/arm-grab.py:158-161: 4 seconds when the
status is exactly 500, 60 seconds otherwise. -/
def backoffDelay (status : Nat) : Nat :=
  if status = 500 then 4 else 60

/-- The string built at src/arm-grab.py:146-153: the join of the error
timestamp, the availability domain, the decimal status and the message
with the separator three dashes. -/
def formatFailureMsg (timestamp ad : String) (status : Nat) (message : String) :
    String :=
  String.intercalate "---" [timestamp, ad, toString status, message]

/-- safe_sleep (src/arm-grab.py:126-132): sleep, and on KeyboardInterrupt
print the cancellation line and sys.exit(0). The argument tells whether
the interrupt arrives during the sleep; the result is the console lines
printed and the termination it forces, if any. -/
def safe_sleep (interrupted : Bool) : List String × Option Final :=
  if interrupted then (["\nctrl-c  --  exiting"], some (Final.exited 0)) else ([], none)

/-- One iteration of the for body of main (src/arm-grab.py:138-165) on
candidate cand at global attempt k: submit, and on ServiceError print the
joined message, append it with a newline to faillog.txt (crashing the
process if the write raises, as the script has no handler there), then
back off with safe_sleep. Returns the updated trace and the termination
it forces, if any. -/
def attemptStep (env : Env) (k : Nat) (cand : LaunchInstanceDetails)
    (s : RunState) : RunState × Option Final :=
  let s1 : RunState := { s with submissions := s.submissions ++ [cand.availability_domain] }
  match env.submit k with
  | SubmitResult.success _ =>
      ({ s1 with output := s1.output ++ ["FINALLY!!!!"] }, some (Final.exited 0))
  | SubmitResult.keyboardInterrupt =>
      ({ s1 with output := s1.output ++ ["\nctrl-c  --  exiting"] }, some (Final.exited 0))
  | SubmitResult.serviceError e =>
      let msg := formatFailureMsg e.timestamp cand.availability_domain e.status e.message
      let s2 : RunState := { s1 with output := s1.output ++ [msg] }
      match env.logWrite k with
      | some ioerr => (s2, some (Final.crashed ioerr))
      | none =>
          let s3 : RunState := { s2 with log := s2.log ++ [msg ++ "\n"] }
          let d := backoffDelay e.status
          let sl := safe_sleep (env.sleepInterrupt k)
          ({ s3 with sleeps := s3.sleeps ++ [d], output := s3.output ++ sl.1 }, sl.2)

/-- The while True / for loop of main (src/arm-grab.py:137-165), flattened:
at attempt k the candidate at index k % length is tried (none exists when
the list is empty, in which case the loop spins without submitting). Fuel
bounds the number of iterations looked at; when it runs out with the loop
still going the result is the trace so far and no termination. -/
def run (env : Env) (cs : List LaunchInstanceDetails) :
    Nat → Nat → RunState → RunState × Option Final
  | 0, _, s => (s, none)
  | fuel + 1, k, s =>
      match cs[k % cs.length]? with
      | none => run env cs fuel (k + 1) s
      | some cand =>
          match attemptStep env k cand s with
          | (s', some f) => (s', some f)
          | (s', none) => run env cs fuel (k + 1) s'

/-- The empty starting trace of main. -/
def initState : RunState := { output := [], log := [], sleeps := [], submissions := [] }

/-- A sample configuration, standing for the values the script resolves at
startup. -/
def cfg0 : Config :=
  { instance_name := "Armz0"
    compartment_id := "ocid1.tenancy.t"
    shape_name := "VM.Standard.A1.Flex"
    subnet_id := "ocid1.subnet.s"
    image_id := "ocid1.image.i"
    pub_key := "ssh-rsa AAAA" }

/-- A sample out-of-capacity ServiceError. -/
def err500 : ServiceError :=
  { timestamp := "2024-05-01T00:00:00Z", status := 500, message := "Out of host capacity." }

/-- An environment in which every submission fails with err500, every log
write succeeds, and no interrupt ever arrives. -/
def envAllFail : Env :=
  { submit := fun _ => SubmitResult.serviceError err500
    logWrite := fun _ => none
    sleepInterrupt := fun _ => false }

/-- An environment in which every submission fails with err500 and every
append to faillog.txt raises an IOError (say, a full disk). -/
def envLogFail : Env :=
  { submit := fun _ => SubmitResult.serviceError err500
    logWrite := fun _ => some "[Errno 28] No space left on device"
    sleepInterrupt := fun _ => false }

/-- An environment in which Ctrl-C arrives while the first launch_instance
call is in flight. -/
def envCtrlC : Env :=
  { submit := fun _ => SubmitResult.keyboardInterrupt
    logWrite := fun _ => none
    sleepInterrupt := fun _ => false }

/-- An environment in which the first submission succeeds. -/
def envSuccess : Env :=
  { submit := fun _ => SubmitResult.success "ocid1.instance.oc1.iad.grabbed"
    logWrite := fun _ => none
    sleepInterrupt := fun _ => false }

/-- An environment in which every submission fails and Ctrl-C arrives
during the first backoff sleep. -/
def envSleepInt : Env :=
  { submit := fun _ => SubmitResult.serviceError err500
    logWrite := fun _ => none
    sleepInterrupt := fun _ => true }

/-- Whether a submission outcome is a ServiceError. -/
def SubmitResult.isServiceError : SubmitResult → Bool
  | SubmitResult.serviceError _ => true
  | _ => false

/-- Attempt k neither terminates nor crashes the loop: the submission
raises a ServiceError, the log write succeeds, and no interrupt arrives
during the backoff sleep. -/
def Continues (env : Env) (k : Nat) : Prop :=
  (env.submit k).isServiceError = true ∧ env.logWrite k = none ∧
    env.sleepInterrupt k = false

instance (env : Env) (k : Nat) : Decidable (Continues env k) := by
  unfold Continues; infer_instance

/-- The availability domain the flattened loop submits to at global
attempt k (empty string when the candidate list is empty and no submission
happens). -/
def candidateAD (cs : List LaunchInstanceDetails) (k : Nat) : String :=
  match cs[k % cs.length]? with
  | some c => c.availability_domain
  | none => ""

/-- The location at round-robin position k of a location list. -/
def roundRobinAD (ads : List String) (k : Nat) : String :=
  ads.getD (k % ads.length) ""

/-- The characters of the separator the script joins and external tooling
splits on. -/
def sepChars : List Char := ['-', '-', '-']

/-- Python str.split on a non-empty separator, over character lists:
scan left to right, cutting at each leftmost occurrence of the separator.
The fuel argument only makes the recursion structural; it is set larger
than the input so the first branch is never reached. -/
def pySplitGo (sep : List Char) : Nat → List Char → List Char → List (List Char)
  | 0, acc, l => [acc.reverse ++ l]
  | fuel + 1, acc, l =>
      match l with
      | [] => [acc.reverse]
      | c :: cs =>
          if sep.isPrefixOf (c :: cs) then
            acc.reverse :: pySplitGo sep fuel [] ((c :: cs).drop sep.length)
          else
            pySplitGo sep fuel (c :: acc) cs

/-- Python str.split (Python raises on an empty separator; the first
branch keeps the model total and is unused here). -/
def pySplit (sep l : List Char) : List (List Char) :=
  if sep.isEmpty then [l] else pySplitGo sep (l.length + 1) [] l

/-- The line the script appends to faillog.txt for one failure
(src/arm-grab.py:155-156): the joined message with a newline. -/
def failureLogLine (timestamp ad : String) (status : Nat) (message : String) :
    String :=
  formatFailureMsg timestamp ad status message ++ "\n"

example :
    (run envAllFail (create_instance_list cfg0 ["AD-1", "AD-2"]) 3 0 initState).1.submissions
      = ["AD-1", "AD-2", "AD-1"] := by decide

example :
    (run envAllFail (create_instance_list cfg0 ["AD-1"]) 1 0 initState).1.log
      = ["2024-05-01T00:00:00Z---AD-1---500---Out of host capacity.\n"] := by decide

example : pySplit sepChars ("t---a----500---m".data)
    = ["t".data, "a".data, "-500".data, "m".data] := by decide

/-- Claim C1. The spec and the module docstring say the backoff is 20
seconds for every status in 500..599 and 60 seconds otherwise; the code at
src/arm-grab.py:158-161 instead sleeps 4 seconds, and only for status
exactly 500: at status 500 the delay is 4, not 20, and at status 503
(transient per the spec) it is 60, not 20. -/
theorem backoff_code_evaluation :
    backoffDelay 500 = 4 ∧ backoffDelay 503 = 60 ∧
      backoffDelay 500 ≠ 20 ∧ backoffDelay 503 ≠ 20 := by decide

/-- Claim C2, counterexample. When the append to faillog.txt raises an
IOError at the first failure, the run does not print-and-continue: it
crashes with that error, and although fuel for 50 further iterations is
available, only the one submission before the write ever happens. -/
theorem log_ioerror_cex :
    (run envLogFail (create_instance_list cfg0 ["AD-1", "AD-2"]) 50 0 initState).2
        = some (Final.crashed "[Errno 28] No space left on device") ∧
      (run envLogFail (create_instance_list cfg0 ["AD-1", "AD-2"]) 50 0 initState).1.submissions
        = ["AD-1"] := by decide

/-- Claim C2, amended. An IOError raised by the failure-log write
propagates out of the loop uncaught: the run ends crashed with that error
immediately, with no further submissions, however much fuel remains. -/
theorem log_ioerror_crashes (env : Env) (cs : List LaunchInstanceDetails)
    (fuel k : Nat) (s : RunState) (cand : LaunchInstanceDetails)
    (e : ServiceError) (ioerr : String)
    (hc : cs[k % cs.length]? = some cand)
    (hs : env.submit k = SubmitResult.serviceError e)
    (hl : env.logWrite k = some ioerr) :
    (run env cs (fuel + 1) k s).2 = some (Final.crashed ioerr) ∧
      (run env cs (fuel + 1) k s).1.submissions
        = s.submissions ++ [cand.availability_domain] := by
  simp [run, hc, attemptStep, hs, hl]

/-- Claim C2, witness for the amended theorem. -/
theorem log_ioerror_crashes_witness :
    (run envLogFail (create_instance_list cfg0 ["AD-1"]) 8 0 initState).2
        = some (Final.crashed "[Errno 28] No space left on device") ∧
      (run envLogFail (create_instance_list cfg0 ["AD-1"]) 8 0 initState).1.submissions
        = initState.submissions ++ ["AD-1"] :=
  log_ioerror_crashes envLogFail (create_instance_list cfg0 ["AD-1"]) 7 0 initState
    { template cfg0 with availability_domain := "AD-1" } err500
    "[Errno 28] No space left on device" (by decide) rfl rfl

/-- Claim C3, counterexample. Called on an empty location list,
create_instance_list returns the empty list rather than failing with a
ConfigurationError (the script defines no such error), and the loop then
runs: 100 iterations complete without any submission and without any
termination or fault. -/
theorem empty_locations_cex :
    create_instance_list cfg0 [] = [] ∧
      run envAllFail (create_instance_list cfg0 []) 100 0 initState
        = (initState, none) := by decide

/-- Claim C3, amended. On an empty location list the builder returns an
empty candidate sequence without error, and the acquisition loop then
spins forever: every number of iterations completes with the trace
unchanged — no submissions — and no termination. -/
theorem empty_locations_loop_spins (cfg : Config) (env : Env) (fuel k : Nat)
    (s : RunState) :
    create_instance_list cfg [] = [] ∧
      run env (create_instance_list cfg []) fuel k s = (s, none) := by
  refine ⟨rfl, ?_⟩
  induction fuel generalizing k with
  | zero => rfl
  | succ n ih => simpa [run, create_instance_list] using ih (k + 1)

/-- Claim C4. For every location list, create_instance_list returns a list
of the same length whose j-th element is the template with only the
availability domain replaced by the j-th location, in order; being a pure
function of its inputs, it has no side effects. -/
theorem create_instance_list_spec (cfg : Config) (ads : List String) :
    (create_instance_list cfg ads).length = ads.length ∧
      ∀ j : Nat, (create_instance_list cfg ads).get? j
        = (ads.get? j).map
            (fun ad => { template cfg with availability_domain := ad }) := by
  refine ⟨by simp [create_instance_list], fun j => ?_⟩
  simp [create_instance_list, List.get?_map]

/-- Claim C6. If Ctrl-C arrives while the controller sleeps in safe_sleep
after a recorded failure, the run terminates at that very attempt with
sys.exit(0) — the success exit code, no propagated fault — having made no
submission beyond the one whose backoff was interrupted, and the console
ends with the failure echo followed by the cancellation line. -/
theorem interrupt_during_backoff (env : Env) (cs : List LaunchInstanceDetails)
    (fuel k : Nat) (s : RunState) (cand : LaunchInstanceDetails) (e : ServiceError)
    (hc : cs[k % cs.length]? = some cand)
    (hs : env.submit k = SubmitResult.serviceError e)
    (hl : env.logWrite k = none)
    (hi : env.sleepInterrupt k = true) :
    (run env cs (fuel + 1) k s).2 = some (Final.exited 0) ∧
      (run env cs (fuel + 1) k s).1.submissions
        = s.submissions ++ [cand.availability_domain] ∧
      (run env cs (fuel + 1) k s).1.output
        = s.output ++ [formatFailureMsg e.timestamp cand.availability_domain
                         e.status e.message,
                       "\nctrl-c  --  exiting"] := by
  simp [run, hc, attemptStep, hs, hl, hi, safe_sleep]

/-- Claim C6, witness. -/
theorem interrupt_during_backoff_witness :
    (run envSleepInt (create_instance_list cfg0 ["AD-1"]) 9 0 initState).2
        = some (Final.exited 0) ∧
      (run envSleepInt (create_instance_list cfg0 ["AD-1"]) 9 0 initState).1.submissions
        = initState.submissions ++ ["AD-1"] ∧
      (run envSleepInt (create_instance_list cfg0 ["AD-1"]) 9 0 initState).1.output
        = initState.output ++ [formatFailureMsg err500.timestamp "AD-1"
                                 err500.status err500.message,
                               "\nctrl-c  --  exiting"] :=
  interrupt_during_backoff envSleepInt (create_instance_list cfg0 ["AD-1"]) 8 0
    initState { template cfg0 with availability_domain := "AD-1" } err500
    (by decide) rfl rfl rfl

/-- A continuing attempt in full: on a ServiceError with a successful log
write and an uninterrupted sleep, attemptStep extends the trace by the
echo line, the log line, the backoff duration and the submission, and
forces no termination. -/
theorem attemptStep_continue (env : Env) (k : Nat) (cand : LaunchInstanceDetails)
    (s : RunState) (e : ServiceError)
    (hs : env.submit k = SubmitResult.serviceError e)
    (hl : env.logWrite k = none) (hi : env.sleepInterrupt k = false) :
    attemptStep env k cand s =
      ({ s with
          output := s.output ++ [formatFailureMsg e.timestamp
                                   cand.availability_domain e.status e.message],
          log := s.log ++ [formatFailureMsg e.timestamp cand.availability_domain
                             e.status e.message ++ "\n"],
          sleeps := s.sleeps ++ [backoffDelay e.status],
          submissions := s.submissions ++ [cand.availability_domain] }, none) := by
  simp [attemptStep, hs, hl, hi, safe_sleep]

/-- The one-step unfolding of the flattened loop. -/
theorem run_succ (env : Env) (cs : List LaunchInstanceDetails) (fuel k : Nat)
    (s : RunState) :
    run env cs (fuel + 1) k s =
      match cs[k % cs.length]? with
      | none => run env cs fuel (k + 1) s
      | some cand =>
          match attemptStep env k cand s with
          | (s', some f) => (s', some f)
          | (s', none) => run env cs fuel (k + 1) s' := rfl

/-- While every attempt continues (fails, logs, sleeps uninterrupted), the
submission trace of the flattened loop is exactly the round-robin sequence
of candidates, a function of the attempt counter alone, and the run does
not terminate. -/
theorem run_continues_trace (env : Env) (cs : List LaunchInstanceDetails)
    (hcs : cs ≠ []) :
    ∀ (fuel k : Nat) (s : RunState), (∀ j, j < fuel → Continues env (k + j)) →
      (run env cs fuel k s).1.submissions
          = s.submissions ++ (List.range fuel).map (fun t => candidateAD cs (k + t)) ∧
        (run env cs fuel k s).2 = none := by
  intro fuel
  induction fuel with
  | zero => intro k s _; simp [run]
  | succ n ih =>
      intro k s hcont
      have h0 : Continues env k := by simpa using hcont 0 (Nat.succ_pos n)
      obtain ⟨hse, hlw, hsi⟩ := h0
      have hlt : k % cs.length < cs.length :=
        Nat.mod_lt _ (List.length_pos.mpr hcs)
      have hget : cs[k % cs.length]? = some (cs.get ⟨k % cs.length, hlt⟩) := by
        simp [List.getElem?_eq_getElem hlt]
      cases hsub : env.submit k with
      | success h => rw [hsub] at hse; simp [SubmitResult.isServiceError] at hse
      | keyboardInterrupt => rw [hsub] at hse; simp [SubmitResult.isServiceError] at hse
      | serviceError e =>
          have hstep := attemptStep_continue env k (cs.get ⟨k % cs.length, hlt⟩) s e hsub hlw hsi
          have hshift : ∀ j, j < n → Continues env (k + 1 + j) := by
            intro j hj
            have h := hcont (j + 1) (Nat.succ_lt_succ hj)
            rwa [show k + (j + 1) = k + 1 + j by omega] at h
          rw [run_succ]
          simp only [hget, hstep]
          constructor
          · rw [(ih (k + 1) _ hshift).1]
            have hc0 : candidateAD cs k = (cs.get ⟨k % cs.length, hlt⟩).availability_domain := by
              simp [candidateAD, hget]
            have h1 : (fun t => candidateAD cs (k + t)) ∘ Nat.succ
                = fun t => candidateAD cs (k + 1 + t) := by
              funext t
              simp only [Function.comp]
              congr 1
              omega
            rw [List.range_succ_eq_map, List.map_cons, List.map_map, h1]
            simp [hc0]
          · exact (ih (k + 1) _ hshift).2

/-- In the candidate list the builder makes, the round-robin candidate at
attempt k carries exactly the location at round-robin position k. -/
theorem candidateAD_create (cfg : Config) (ads : List String) (m : Nat) :
    candidateAD (create_instance_list cfg ads) m = roundRobinAD ads m := by
  unfold candidateAD roundRobinAD create_instance_list
  rw [List.length_map]
  cases h : ads[m % ads.length]? <;>
    simp [List.getElem?_map, h, List.getD_eq_get?, List.get?_eq_getElem?]

/-- Claim C5. With at least two distinct locations, while the run
continues the controller's submission trace is the fixed round-robin
sequence of the builder's order — a function of the attempt counter only,
not of the failure history — and the locations at consecutive round-robin
positions always differ, so no location is submitted to twice in a row. -/
theorem round_robin_fixed_order (cfg : Config) (ads : List String) (env : Env)
    (fuel k : Nat) (s : RunState)
    (hlen : 2 ≤ ads.length) (hnd : ads.Nodup)
    (hcont : ∀ j, j < fuel → Continues env (k + j)) :
    (run env (create_instance_list cfg ads) fuel k s).1.submissions
        = s.submissions ++ (List.range fuel).map (fun t => roundRobinAD ads (k + t)) ∧
      ∀ t : Nat, roundRobinAD ads (k + t) ≠ roundRobinAD ads (k + t + 1) := by
  have hne : ads ≠ [] := by
    intro h; rw [h] at hlen; simp at hlen
  have hcs : create_instance_list cfg ads ≠ [] := by
    simp [create_instance_list, hne]
  constructor
  · rw [(run_continues_trace env _ hcs fuel k s hcont).1]
    simp [candidateAD_create]
  · intro t
    have hpos : 0 < ads.length := by omega
    have ha : (k + t) % ads.length < ads.length := Nat.mod_lt _ hpos
    have hb : (k + t + 1) % ads.length < ads.length := Nat.mod_lt _ hpos
    have hab : (k + t) % ads.length ≠ (k + t + 1) % ads.length := by
      intro h
      have hdvd : ads.length ∣ (k + t + 1) - (k + t) :=
        (Nat.modEq_iff_dvd' (Nat.le_succ _)).mp h
      rw [show (k + t + 1) - (k + t) = 1 by omega] at hdvd
      have := Nat.le_of_dvd Nat.one_pos hdvd
      omega
    have hga : roundRobinAD ads (k + t) = ads[(k + t) % ads.length] := by
      simp [roundRobinAD, List.getD_eq_get?, List.get?_eq_getElem?,
            List.getElem?_eq_getElem ha]
    have hgb : roundRobinAD ads (k + t + 1) = ads[(k + t + 1) % ads.length] := by
      simp [roundRobinAD, List.getD_eq_get?, List.get?_eq_getElem?,
            List.getElem?_eq_getElem hb]
    rw [hga, hgb]
    intro heq
    exact hab ((List.Nodup.getElem_inj_iff hnd).mp heq)

/-- Claim C5, witness. -/
theorem round_robin_fixed_order_witness :
    ((run envAllFail (create_instance_list cfg0 ["AD-1", "AD-2"]) 4 0 initState).1.submissions
        = initState.submissions
            ++ (List.range 4).map (fun t => roundRobinAD ["AD-1", "AD-2"] (0 + t))) ∧
      roundRobinAD ["AD-1", "AD-2"] (0 + 0) ≠ roundRobinAD ["AD-1", "AD-2"] (0 + 0 + 1) :=
  ⟨(round_robin_fixed_order cfg0 ["AD-1", "AD-2"] envAllFail 4 0 initState
      (by decide) (by decide) (by decide)).1,
   (round_robin_fixed_order cfg0 ["AD-1", "AD-2"] envAllFail 4 0 initState
      (by decide) (by decide) (by decide)).2 0⟩

/-- Claim C8, counterexample. On a successful submission the script prints
only the fixed line FINALLY!!!! and exits with code 0; the allocated
handle returned by the provider appears nowhere in the run's output, so it
is not emitted to the caller. -/
theorem success_discards_handle_cex :
    (run envSuccess (create_instance_list cfg0 ["AD-1"]) 5 0 initState).2
        = some (Final.exited 0) ∧
      (run envSuccess (create_instance_list cfg0 ["AD-1"]) 5 0 initState).1.output
        = ["FINALLY!!!!"] ∧
      "ocid1.instance.oc1.iad.grabbed"
        ∉ (run envSuccess (create_instance_list cfg0 ["AD-1"]) 5 0 initState).1.output := by
  decide

/-- Claim C8, amended. On Success the controller prints the fixed success
message and terminates immediately with exit code 0, making no further
submissions; the allocated handle is discarded — the resulting trace and
exit are the same whatever the handle was. -/
theorem success_fixed_message (env : Env) (cs : List LaunchInstanceDetails)
    (fuel k : Nat) (s : RunState) (cand : LaunchInstanceDetails) (handle : String)
    (hc : cs[k % cs.length]? = some cand)
    (hs : env.submit k = SubmitResult.success handle) :
    run env cs (fuel + 1) k s
      = ({ s with
             output := s.output ++ ["FINALLY!!!!"],
             submissions := s.submissions ++ [cand.availability_domain] },
         some (Final.exited 0)) := by
  simp [run, hc, attemptStep, hs]

/-- Claim C8, witness for the amended theorem. -/
theorem success_fixed_message_witness :
    run envSuccess (create_instance_list cfg0 ["AD-1"]) 5 0 initState
      = ({ initState with
             output := initState.output ++ ["FINALLY!!!!"],
             submissions := initState.submissions ++ ["AD-1"] },
         some (Final.exited 0)) :=
  success_fixed_message envSuccess (create_instance_list cfg0 ["AD-1"]) 4 0
    initState { template cfg0 with availability_domain := "AD-1" }
    "ocid1.instance.oc1.iad.grabbed" (by decide) rfl

/-- Claim C9. A KeyboardInterrupt raised while the launch_instance call
itself is in flight is caught by the handler at src/arm-grab.py:163-165:
the run prints the cancellation line and terminates with sys.exit(0) at
that attempt — no propagated fault, no further submissions. -/
theorem interrupt_during_submit (env : Env) (cs : List LaunchInstanceDetails)
    (fuel k : Nat) (s : RunState) (cand : LaunchInstanceDetails)
    (hc : cs[k % cs.length]? = some cand)
    (hs : env.submit k = SubmitResult.keyboardInterrupt) :
    run env cs (fuel + 1) k s
      = ({ s with
             output := s.output ++ ["\nctrl-c  --  exiting"],
             submissions := s.submissions ++ [cand.availability_domain] },
         some (Final.exited 0)) := by
  simp [run, hc, attemptStep, hs]

/-- Claim C9, witness. -/
theorem interrupt_during_submit_witness :
    run envCtrlC (create_instance_list cfg0 ["AD-1"]) 5 0 initState
      = ({ initState with
             output := initState.output ++ ["\nctrl-c  --  exiting"],
             submissions := initState.submissions ++ ["AD-1"] },
         some (Final.exited 0)) :=
  interrupt_during_submit envCtrlC (create_instance_list cfg0 ["AD-1"]) 4 0
    initState { template cfg0 with availability_domain := "AD-1" } (by decide) rfl

/-- Claim C10. For every failure whose log write succeeds, the line
appended to faillog.txt is exactly the console echo with a newline
appended: both are produced from the same joined string — the echo is the
entry printed at position length of the previous output, and the log gains
that same string plus the newline. -/
theorem console_echo_matches_log (env : Env) (k : Nat)
    (cand : LaunchInstanceDetails) (s : RunState) (e : ServiceError)
    (hs : env.submit k = SubmitResult.serviceError e)
    (hl : env.logWrite k = none) :
    (attemptStep env k cand s).1.log
        = s.log ++ [formatFailureMsg e.timestamp cand.availability_domain
                      e.status e.message ++ "\n"] ∧
      (attemptStep env k cand s).1.output[s.output.length]?
        = some (formatFailureMsg e.timestamp cand.availability_domain
                  e.status e.message) := by
  have hget : ∀ (msg : String) (tail : List String),
      (s.output ++ (msg :: tail))[s.output.length]? = some msg := by
    intro msg tail
    rw [List.getElem?_append_right (Nat.le_refl _)]
    simp
  cases hi : env.sleepInterrupt k <;>
    simp [attemptStep, hs, hl, hi, safe_sleep, hget]

/-- Claim C10, witness. -/
theorem console_echo_matches_log_witness :
    (attemptStep envAllFail 0 { template cfg0 with availability_domain := "AD-1" }
        initState).1.log
        = initState.log ++ [formatFailureMsg err500.timestamp "AD-1"
                              err500.status err500.message ++ "\n"] ∧
      (attemptStep envAllFail 0 { template cfg0 with availability_domain := "AD-1" }
          initState).1.output[initState.output.length]?
        = some (formatFailureMsg err500.timestamp "AD-1" err500.status err500.message) :=
  console_echo_matches_log envAllFail 0
    { template cfg0 with availability_domain := "AD-1" } initState err500 rfl rfl

/-- The result of pySplitGo does not depend on the fuel once the fuel
exceeds the input length. -/
theorem pySplitGo_fuel (sep : List Char) (hsep : sep ≠ []) :
    ∀ (f1 f2 : Nat) (acc l : List Char), l.length < f1 → l.length < f2 →
      pySplitGo sep f1 acc l = pySplitGo sep f2 acc l := by
  intro f1
  induction f1 with
  | zero => intro f2 acc l h1 _; exact absurd h1 (Nat.not_lt_zero _)
  | succ a ih =>
      intro f2 acc l h1 h2
      cases f2 with
      | zero => exact absurd h2 (Nat.not_lt_zero _)
      | succ b =>
          cases l with
          | nil => simp [pySplitGo]
          | cons c cs =>
              have hsl : 1 ≤ sep.length := List.length_pos.mpr hsep
              simp only [pySplitGo]
              by_cases hp : sep.isPrefixOf (c :: cs) = true
              · rw [if_pos hp, if_pos hp]
                have hdl : ((c :: cs).drop sep.length).length ≤ cs.length := by
                  simp [List.length_drop]; omega
                rw [ih b [] ((c :: cs).drop sep.length)
                      (by simp at h1; omega) (by simp at h2; omega)]
              · rw [if_neg hp, if_neg hp]
                exact ih b (c :: acc) cs (by simp at h1; omega) (by simp at h2; omega)

/-- While a part with no separator occurrence and no trailing dash is
being scanned, the separator is never detected at the head. -/
theorem sep_not_prefix_mid (p rest : List Char) (hp : p ≠ [])
    (hinf : ¬ sepChars <:+: p) (hlast : p.getLast? ≠ some '-') :
    ¬ (sepChars.isPrefixOf (p ++ (sepChars ++ rest)) = true) := by
  intro hpre
  rw [List.isPrefixOf_iff_prefix] at hpre
  cases p with
  | nil => exact hp rfl
  | cons c1 q1 =>
      cases q1 with
      | nil =>
          simp only [sepChars, List.cons_append, List.nil_append] at hpre
          rw [List.cons_prefix_cons] at hpre
          exact hlast (by simp [← hpre.1])
      | cons c2 q2 =>
          cases q2 with
          | nil =>
              simp only [sepChars, List.cons_append, List.nil_append] at hpre
              rw [List.cons_prefix_cons] at hpre
              rw [List.cons_prefix_cons] at hpre
              exact hlast (by simp [← hpre.2.1])
          | cons c3 q3 =>
              simp only [sepChars, List.cons_append] at hpre
              rw [List.cons_prefix_cons] at hpre
              rw [List.cons_prefix_cons] at hpre
              rw [List.cons_prefix_cons] at hpre
              obtain ⟨h1, h2, h3, -⟩ := hpre
              exact hinf ⟨[], q3, by simp [sepChars, ← h1, ← h2, ← h3]⟩

/-- Scanning a tail with no separator occurrence yields a single final
part. -/
theorem pySplitGo_no_sep : ∀ (m : List Char) (fuel : Nat) (acc : List Char),
    ¬ sepChars <:+: m → m.length < fuel →
      pySplitGo sepChars fuel acc m = [acc.reverse ++ m] := by
  intro m
  induction m with
  | nil =>
      intro fuel acc _ h
      cases fuel with
      | zero => exact absurd h (Nat.not_lt_zero _)
      | succ f => simp [pySplitGo]
  | cons c cs ih =>
      intro fuel acc hm h
      cases fuel with
      | zero => exact absurd h (Nat.not_lt_zero _)
      | succ f =>
          have hnp : ¬ (sepChars.isPrefixOf (c :: cs) = true) := by
            intro hp
            exact hm ((List.isPrefixOf_iff_prefix.mp hp).isInfix)
          have hcs : ¬ sepChars <:+: cs := by
            intro hin
            obtain ⟨u, v, huv⟩ := hin
            exact hm ⟨c :: u, v, by simp [huv]⟩
          simp only [pySplitGo]
          rw [if_neg hnp, ih f (c :: acc) hcs (by simp at h ⊢; omega)]
          simp

/-- Scanning a separator-free part with no trailing dash, followed by the
separator, cuts exactly at the separator. -/
theorem pySplitGo_consume : ∀ (p acc : List Char) (fuel : Nat) (rest : List Char),
    (p ++ (sepChars ++ rest)).length < fuel →
    ¬ sepChars <:+: p → p.getLast? ≠ some '-' →
    pySplitGo sepChars fuel acc (p ++ (sepChars ++ rest))
      = (acc.reverse ++ p) :: pySplitGo sepChars (rest.length + 1) [] rest := by
  intro p
  induction p with
  | nil =>
      intro acc fuel rest hf _ _
      cases fuel with
      | zero => exact absurd hf (Nat.not_lt_zero _)
      | succ f =>
          have hrl : rest.length < f := by
            simp [sepChars] at hf; omega
          have hcond : sepChars.isPrefixOf ('-' :: '-' :: '-' :: rest) = true :=
            List.isPrefixOf_iff_prefix.mpr (List.prefix_append sepChars rest)
          rw [show ([] : List Char) ++ (sepChars ++ rest) = '-' :: '-' :: '-' :: rest from rfl]
          conv_lhs => simp only [pySplitGo]
          rw [if_pos hcond]
          rw [show ('-' :: '-' :: '-' :: rest).drop sepChars.length = rest from rfl]
          rw [pySplitGo_fuel sepChars (by decide) f (rest.length + 1) [] rest
                hrl (Nat.lt_succ_self _)]
          simp
  | cons c p' ih =>
      intro acc fuel rest hf hinf hlast
      cases fuel with
      | zero => exact absurd hf (Nat.not_lt_zero _)
      | succ f =>
          have hnp := sep_not_prefix_mid (c :: p') rest (by simp) hinf hlast
          have hlen : (p' ++ (sepChars ++ rest)).length < f := by
            simp [sepChars] at hf ⊢; omega
          have hinf' : ¬ sepChars <:+: p' := by
            intro hin
            obtain ⟨u, v, huv⟩ := hin
            exact hinf ⟨c :: u, v, by simp [huv]⟩
          have hlast' : p'.getLast? ≠ some '-' := by
            cases p' with
            | nil => simp
            | cons d q => simpa using hlast
          simp only [List.cons_append] at hnp ⊢
          conv_lhs => simp only [pySplitGo]
          rw [if_neg hnp, ih (c :: acc) f rest hlen hinf' hlast']
          simp

/-- Nat.digitChar sends values below ten to digit characters. -/
theorem digitChar_isDigit (m : Nat) (h : m < 10) :
    (Nat.digitChar m).isDigit = true := by
  interval_cases m <;> decide

/-- Nat.toDigitsCore in base ten only prepends digit characters. -/
theorem toDigitsCore_digits : ∀ (fuel n : Nat) (ds : List Char),
    (∀ c ∈ ds, c.isDigit = true) →
    ∀ c ∈ Nat.toDigitsCore 10 fuel n ds, c.isDigit = true := by
  intro fuel
  induction fuel with
  | zero => intro n ds hds; simpa [Nat.toDigitsCore] using hds
  | succ f ih =>
      intro n ds hds
      have hds' : ∀ c ∈ Nat.digitChar (n % 10) :: ds, c.isDigit = true := by
        intro c hc
        rcases List.mem_cons.mp hc with h | h
        · rw [h]; exact digitChar_isDigit _ (Nat.mod_lt _ (by omega))
        · exact hds c h
      intro c hc
      by_cases h0 : n / 10 = 0
      · simp only [Nat.toDigitsCore, if_pos h0] at hc
        exact hds' c hc
      · simp only [Nat.toDigitsCore, if_neg h0] at hc
        exact ih (n / 10) _ hds' c hc

/-- Every character of the decimal representation of a Nat is a digit; in
particular the status field of a log entry contains no dash. -/
theorem repr_digits (n : Nat) : ∀ c ∈ (toString n).data, c.isDigit = true := by
  intro c hc
  exact toDigitsCore_digits (n + 1) n [] (by simp) c hc

/-- The character-level shape of the joined failure message: the four
fields separated by the three-dash separator. -/
theorem formatFailureMsg_data (t a : String) (n : Nat) (m : String) :
    (formatFailureMsg t a n m).data
      = t.data ++ (sepChars ++ (a.data ++ (sepChars
          ++ ((toString n).data ++ (sepChars ++ m.data))))) := by
  have h1 : formatFailureMsg t a n m
      = ((t ++ "---" ++ a) ++ "---" ++ toString n) ++ "---" ++ m := by
    simp [formatFailureMsg, String.intercalate, String.intercalate.go]
  rw [h1]
  simp only [String.data_append]
  simp [sepChars, List.append_assoc]

/-- Splitting the join of four parts on the separator recovers the parts,
provided no part contains the separator and no part before the last ends
with a dash. -/
theorem pySplit_four (f1 f2 f3 f4 : List Char)
    (h1i : ¬ sepChars <:+: f1) (h1l : f1.getLast? ≠ some '-')
    (h2i : ¬ sepChars <:+: f2) (h2l : f2.getLast? ≠ some '-')
    (h3i : ¬ sepChars <:+: f3) (h3l : f3.getLast? ≠ some '-')
    (h4i : ¬ sepChars <:+: f4) :
    pySplit sepChars (f1 ++ (sepChars ++ (f2 ++ (sepChars ++ (f3 ++ (sepChars ++ f4))))))
      = [f1, f2, f3, f4] := by
  rw [show pySplit sepChars
        (f1 ++ (sepChars ++ (f2 ++ (sepChars ++ (f3 ++ (sepChars ++ f4))))))
      = pySplitGo sepChars
          ((f1 ++ (sepChars ++ (f2 ++ (sepChars ++ (f3 ++ (sepChars ++ f4)))))).length + 1)
          [] (f1 ++ (sepChars ++ (f2 ++ (sepChars ++ (f3 ++ (sepChars ++ f4))))))
      from rfl]
  rw [pySplitGo_consume f1 [] _ _ (Nat.lt_succ_self _) h1i h1l]
  rw [pySplitGo_consume f2 [] _ _ (Nat.lt_succ_self _) h2i h2l]
  rw [pySplitGo_consume f3 [] _ _ (Nat.lt_succ_self _) h3i h3l]
  rw [pySplitGo_no_sep f4 _ [] h4i (Nat.lt_succ_self _)]
  simp

/-- Claim C7, counterexample. The caveat of the claim is too weak: with a
Location that merely ends in a dash (here the string of an a and a dash)
and a message free of the separator, splitting the formatted entry on the
separator does not recover the original fields — the trailing dash fuses
with the separator, so the Location comes back shortened and the status
gains a leading dash. -/
theorem roundtrip_message_caveat_cex :
    ¬ sepChars <:+: "m".data ∧
      pySplit sepChars (formatFailureMsg "t" "a-" 500 "m").data
          ≠ ["t".data, "a-".data, (toString 500).data, "m".data] ∧
      pySplit sepChars (formatFailureMsg "t" "a-" 500 "m").data
          = ["t".data, "a".data, "-500".data, "m".data] := by decide

/-- Claim C7, amended. Every log entry is the four fields — timestamp,
Location, decimal status, message — joined by the three-dash separator and
terminated by one newline (four fields, though the spec counts five);
splitting the entry (without its newline terminator) on the separator
recovers the fields whenever, in addition to the message not containing
the separator, the timestamp and the Location do not contain it and do not
end with a dash (the status, being decimal digits, needs no proviso). -/
theorem failure_log_line_roundtrip (t a m : String) (n : Nat)
    (hti : ¬ sepChars <:+: t.data) (htl : t.data.getLast? ≠ some '-')
    (hai : ¬ sepChars <:+: a.data) (hal : a.data.getLast? ≠ some '-')
    (hmi : ¬ sepChars <:+: m.data) :
    failureLogLine t a n m = formatFailureMsg t a n m ++ "\n" ∧
      (formatFailureMsg t a n m).data
        = t.data ++ sepChars ++ a.data ++ sepChars ++ (toString n).data
            ++ sepChars ++ m.data ∧
      pySplit sepChars (formatFailureMsg t a n m).data
        = [t.data, a.data, (toString n).data, m.data] := by
  have hni : ¬ sepChars <:+: (toString n).data := by
    intro hin
    have hmem : '-' ∈ (toString n).data := hin.subset (by simp [sepChars])
    have := repr_digits n '-' hmem
    simp at this
  have hnl : (toString n).data.getLast? ≠ some '-' := by
    intro h
    have hmem : '-' ∈ (toString n).data := List.mem_of_mem_getLast? h
    have := repr_digits n '-' hmem
    simp at this
  refine ⟨rfl, ?_, ?_⟩
  · rw [formatFailureMsg_data]
    simp [List.append_assoc]
  · rw [formatFailureMsg_data]
    exact pySplit_four t.data a.data (toString n).data m.data
      hti htl hai hal hni hnl hmi

/-- Claim C7, witness for the amended theorem. -/
theorem failure_log_line_roundtrip_witness :
    failureLogLine "2024-05-01T00:00:00Z" "fqXW:US-ASHBURN-AD-1" 500
          "Out of host capacity."
        = formatFailureMsg "2024-05-01T00:00:00Z" "fqXW:US-ASHBURN-AD-1" 500
            "Out of host capacity." ++ "\n" ∧
      (formatFailureMsg "2024-05-01T00:00:00Z" "fqXW:US-ASHBURN-AD-1" 500
          "Out of host capacity.").data
        = "2024-05-01T00:00:00Z".data ++ sepChars ++ "fqXW:US-ASHBURN-AD-1".data
            ++ sepChars ++ (toString 500).data ++ sepChars
            ++ "Out of host capacity.".data ∧
      pySplit sepChars (formatFailureMsg "2024-05-01T00:00:00Z"
          "fqXW:US-ASHBURN-AD-1" 500 "Out of host capacity.").data
        = ["2024-05-01T00:00:00Z".data, "fqXW:US-ASHBURN-AD-1".data,
           (toString 500).data, "Out of host capacity.".data] :=
  failure_log_line_roundtrip "2024-05-01T00:00:00Z" "fqXW:US-ASHBURN-AD-1"
    "Out of host capacity." 500 (by decide) (by decide) (by decide) (by decide)
    (by decide)

end ArmGrab
